import Mathlib

/-!
Shallow embedding of the Vento-LexOps agent core (src/agent) used to check
the natural-language specification against the code.

Modelled modules:
  * `lexnet_automator.py` — `LexNetAutomator` (browser session lifecycle,
    `login`, `get_pending_notifications`, `check_notifications`,
    `download_notification`, `download_notifications`, `close`) and
    `NotificationInfo`.
  * `vento_agent.py` — `VentoAgent.check_all_accounts` and
    `VentoAgent.download_selected_notifications` acting on the pending-item
    registry (`self.pending_notifications`).
  * `scheduler.py` — `SyncScheduler.set_interval` and `SyncScheduler._run_loop`.
  * `config_manager.py` — `ConfigManager.set_sync_interval`.

External effects (Selenium driver, filesystem, clock, logging, tray
notifications) are modelled by explicit environment records and by pure
descriptions of the file writes; exceptions raised by external calls are
modelled as `Except` values or boolean failure flags in the environment.
-/

/-- Model of a `datetime.datetime` value at second granularity
(microseconds are not relevant to any formatted output the code emits). -/
structure DateTime where
  year : Nat
  month : Nat
  day : Nat
  hour : Nat
  minute : Nat
  second : Nat
deriving DecidableEq

/-- Zero-pad a numeral to two digits, as Python `%m`, `%d`, `%H`, `%M`, `%S` do. -/
def pad2 (n : Nat) : String :=
  if n < 10 then "0" ++ toString n else toString n

/-- Zero-pad a numeral to four digits, as Python `%Y` does for ordinary years. -/
def pad4 (n : Nat) : String :=
  if n < 10 then "000" ++ toString n
  else if n < 100 then "00" ++ toString n
  else if n < 1000 then "0" ++ toString n
  else toString n

/-- `strftime('%Y-%m-%d')`. -/
def DateTime.fmtDate (d : DateTime) : String :=
  pad4 d.year ++ "-" ++ pad2 d.month ++ "-" ++ pad2 d.day

/-- `strftime('%Y%m%d')`. -/
def DateTime.fmtCompact (d : DateTime) : String :=
  pad4 d.year ++ pad2 d.month ++ pad2 d.day

/-- `datetime.isoformat()` for a whole-second value. -/
def DateTime.isoformat (d : DateTime) : String :=
  d.fmtDate ++ "T" ++ pad2 d.hour ++ ":" ++ pad2 d.minute ++ ":" ++ pad2 d.second

/-- `NotificationInfo` from `lexnet_automator.py` (all constructor fields plus
the mutable `downloaded` / `download_path` flags set by `download_notification`). -/
structure NotificationInfo where
  notification_id : String
  court : String
  procedure_number : String
  notification_type : String
  received_date : DateTime
  is_urgent : Bool
  downloaded : Bool
  download_path : Option String
  account_name : String
  certificate_thumbprint : String
  certificate_file : String
  certificate_password : String
deriving DecidableEq

/-- The `NotificationInfo.__init__` defaults: `downloaded=False`,
`download_path=None`, account and certificate fields empty. -/
def mkNotification (nid court proc ntype : String) (received : DateTime)
    (urgent : Bool) : NotificationInfo :=
  { notification_id := nid
    court := court
    procedure_number := proc
    notification_type := ntype
    received_date := received
    is_urgent := urgent
    downloaded := false
    download_path := none
    account_name := ""
    certificate_thumbprint := ""
    certificate_file := ""
    certificate_password := "" }

/-- The grouping key used by `download_selected_notifications`:
`(notif.certificate_thumbprint, notif.certificate_file, notif.certificate_password)`. -/
def IdKey : Type := String × String × String
deriving instance DecidableEq for IdKey

/-- Extract the grouping key from a notification. -/
def idKey (n : NotificationInfo) : IdKey :=
  (n.certificate_thumbprint, n.certificate_file, n.certificate_password)

/-- `LexNetAutomator._get_mock_notifications`: the two hardcoded development
notifications, stamped with the current date. -/
def mock_notifications (now : DateTime) : List NotificationInfo :=
  [ mkNotification ("LEXNET-" ++ now.fmtCompact ++ "-0001")
      "Juzgado de Primera Instancia nº 5 de Madrid" "1234/2024"
      "Providencia" now false
  , mkNotification ("LEXNET-" ++ now.fmtCompact ++ "-0002")
      "Juzgado de lo Social nº 3 de Barcelona" "5678/2024"
      "Sentencia" now true ]

/-- Where, if anywhere, the `try` body of `download_notification` raises:
nowhere (both files are written), before `metadata.json` is written (folder
creation or the metadata dump fails — nothing persists), or after
`metadata.json` but before/while writing `NOTIFICACION.txt` (the metadata
file stays on disk although the item counts as failed — the two writes are
sequential, not atomic). -/
inductive ItemWriteOutcome where
  | ok
  | failBeforeMetadata
  | failAfterMetadata
deriving DecidableEq

/-- Environment for one `LexNetAutomator` session: outcomes of the external
browser, site and filesystem interactions.
  * `seleniumImportOk` — `from selenium import ...` succeeds (on
    `ImportError`, `setup_browser` returns `False` without any fallback);
  * `edgeStarts` — `webdriver.Edge(options=...)` succeeds, assigning
    `self.driver` a live Edge session (if it raises, no Edge session exists
    and the Chrome fallback runs);
  * `edgeConfigOk` — the lines after the Edge assignment
    (`implicitly_wait`, `set_page_load_timeout`) raise no exception; when
    they raise, the Chrome fallback runs while the Edge session is live;
  * `chromeOk` — `_try_chrome_fallback` succeeds, assigning `self.driver` a
    live Chrome session (overwriting, not quitting, any Edge driver);
  * `navRaises` — an exception is raised inside the `try` body of `login`
    (navigation, URL inspection, waits);
  * `urlBandeja` / `pageNotif` — the already-authenticated fast path test
    (`'bandeja' in current_url or 'notificaciones' in page_source`);
  * `finalLexnetOk` — the post-navigation check
    (`'lexnet' in current_url and 'error' not in current_url`);
  * `scrapeRaises` — an exception escapes the inbox-navigation/scraping `try`
    of `get_pending_notifications`;
  * `scraped` — the notifications parsed from the inbox table rows;
  * `checkAborts` — an unexpected exception is raised mid-pass inside the
    `try` body of `check_notifications` after login;
  * `abortAt` — an unexpected exception aborts the download loop of
    `download_notifications` just before processing the item at this index;
  * `itemWrite` — where the filesystem raises, if at all, while
    `download_notification` writes the item's files. -/
structure SessionEnv where
  now : DateTime
  seleniumImportOk : Bool
  edgeStarts : Bool
  edgeConfigOk : Bool
  chromeOk : Bool
  navRaises : Bool
  urlBandeja : Bool
  pageNotif : Bool
  finalLexnetOk : Bool
  scrapeRaises : Bool
  scraped : List NotificationInfo
  checkAborts : Bool
  abortAt : Option Nat
  itemWrite : NotificationInfo → ItemWriteOutcome

/-- Whether `download_notification` succeeds for an item (its `try` body
raises no filesystem error). -/
def SessionEnv.itemOk (env : SessionEnv) (n : NotificationInfo) : Bool :=
  match env.itemWrite n with
  | ItemWriteOutcome.ok => true
  | ItemWriteOutcome.failBeforeMetadata => false
  | ItemWriteOutcome.failAfterMetadata => false

/-- The session-relevant state of a `LexNetAutomator`: whether `self.driver`
is set, and how many live (started, not yet quit) browser sessions exist. -/
structure Automator where
  driver : Bool
  live : Nat
deriving DecidableEq

/-- A freshly constructed `LexNetAutomator` (`self.driver = None`), with no
live session. -/
def automator0 : Automator :=
  { driver := false, live := 0 }

/-- `LexNetAutomator._try_chrome_fallback`: on success `self.driver` is set
to a newly started Chrome session (one more live session, any previous
driver value is overwritten without being quit); on failure it returns
`False` and the state is unchanged. -/
def try_chrome_fallback (env : SessionEnv) (a : Automator) : Bool × Automator :=
  if env.chromeOk then (true, { driver := true, live := a.live + 1 })
  else (false, a)

/-- `LexNetAutomator.setup_browser`: an `ImportError` returns `False` with no
session; if `webdriver.Edge` starts and the remaining configuration lines
succeed, `self.driver` is the live Edge session; any other exception runs
`_try_chrome_fallback` — and when the exception hit after the Edge driver was
assigned, the live Edge session is carried into the fallback (on fallback
success it is orphaned: still live, no longer referenced by `self.driver`). -/
def setup_browser (env : SessionEnv) (a : Automator) : Bool × Automator :=
  if !env.seleniumImportOk then (false, a)
  else if env.edgeStarts then
    if env.edgeConfigOk then (true, { driver := true, live := a.live + 1 })
    else try_chrome_fallback env { driver := true, live := a.live + 1 }
  else try_chrome_fallback env a

/-- Whether `setup_browser` returns `True` (Edge fully set up, or the Chrome
fallback succeeded). Derived characterisation of `setup_browser`. -/
def setup_ok (env : SessionEnv) : Bool :=
  env.seleniumImportOk && ((env.edgeStarts && env.edgeConfigOk) || env.chromeOk)

/-- Whether `self.driver` is set after `setup_browser` ran on a fresh
automator (this also holds on the failure path where Edge was assigned and
the Chrome fallback then failed). Derived characterisation. -/
def driver_after_setup (env : SessionEnv) : Bool :=
  env.seleniumImportOk && (env.edgeStarts || env.chromeOk)

/-- The number of live sessions a pass leaks: exactly one orphaned Edge
session when Edge started, its configuration then raised, and the Chrome
fallback succeeded; zero otherwise. Derived characterisation. -/
def setup_leak (env : SessionEnv) : Nat :=
  if env.seleniumImportOk && env.edgeStarts && !env.edgeConfigOk && env.chromeOk
  then 1 else 0

/-- `LexNetAutomator.close`: quits the driver if one is set (idempotent,
exceptions from `quit()` swallowed) and clears `self.driver`. -/
def Automator.close (a : Automator) : Automator :=
  if a.driver then { driver := false, live := a.live - 1 } else a

/-- The `try` body of `LexNetAutomator.login` once a driver exists: an
exception is caught and yields `False`; the already-authenticated fast path
returns `True`; after the certificate flow, a URL containing `lexnet` and not
`error` returns `True`, and the inconclusive case ("Estado de login incierto")
also returns `True`. -/
def login_nav (env : SessionEnv) (a : Automator) : Bool × Automator :=
  if env.navRaises then (false, a)
  else if env.urlBandeja || env.pageNotif then (true, a)
  else if env.finalLexnetOk then (true, a)
  else (true, a)

/-- `LexNetAutomator.login`: if no driver is set, run `setup_browser` first and
return `False` if it fails; then run the navigation body. -/
def login (env : SessionEnv) (a : Automator) : Bool × Automator :=
  if a.driver then login_nav env a
  else
    match setup_browser env a with
    | (false, a1) => (false, a1)
    | (true, a1) => login_nav env a1

/-- `LexNetAutomator.get_pending_notifications`: with no driver, log an error
and return the empty list; if scraping raises, return the mock notifications;
if scraping found nothing, return the mock notifications; else the scraped
list. -/
def get_pending_notifications (env : SessionEnv) (driver : Bool) :
    List NotificationInfo :=
  if !driver then []
  else if env.scrapeRaises then mock_notifications env.now
  else if env.scraped = [] then mock_notifications env.now
  else env.scraped

/-- `LexNetAutomator.check_notifications`: `try` login (on failure return the
empty list), then list pending notifications; any exception mid-pass is caught
and yields the empty list; the driver is closed in `finally` on every path. -/
def check_notifications (env : SessionEnv) (a : Automator) :
    List NotificationInfo × Automator :=
  match login env a with
  | (false, a1) => ([], a1.close)
  | (true, a1) =>
    if env.checkAborts then ([], a1.close)
    else (get_pending_notifications env a1.driver, a1.close)

/-- Python `str.strip()` on a character list: drop whitespace at both ends. -/
def pyStrip (cs : List Char) : List Char :=
  ((cs.dropWhile Char.isWhitespace).reverse.dropWhile Char.isWhitespace).reverse

/-- `safe_court` from `download_notification`:
`"".join(c for c in notification.court[:30] if c.isalnum() or c in ' -_').strip()`. -/
def safe_court (court : String) : String :=
  String.mk (pyStrip (((court.toList.take 30).filter
    (fun c => c.isAlphanum || c = ' ' || c = '-' || c = '_'))))

/-- `safe_procedure` from `download_notification`:
`notification.procedure_number.replace('/', '-')`. -/
def safe_procedure (proc : String) : String :=
  String.mk (proc.toList.map (fun c => if c = '/' then '-' else c))

/-- A JSON scalar as written by `json.dump` for this metadata record. -/
inductive JsonVal where
  | str (s : String)
  | bool (b : Bool)
deriving DecidableEq

/-- The `metadata` dict written by `download_notification`, in insertion
order, with `datetime.isoformat()` timestamps. -/
def metadata_fields (now : DateTime) (n : NotificationInfo) :
    List (String × JsonVal) :=
  [ ("notification_id", JsonVal.str n.notification_id)
  , ("court", JsonVal.str n.court)
  , ("procedure_number", JsonVal.str n.procedure_number)
  , ("notification_type", JsonVal.str n.notification_type)
  , ("received_date", JsonVal.str n.received_date.isoformat)
  , ("is_urgent", JsonVal.bool n.is_urgent)
  , ("downloaded_at", JsonVal.str now.isoformat) ]

/-- One file left on disk by `download_notification`: its directory (the
date segment and the item segment under the download root), its name, and —
for `metadata.json` — its JSON content (`none` marks the plain-text summary). -/
structure WrittenFile where
  dateFolder : String
  itemFolder : String
  fileName : String
  jsonContent : Option (List (String × JsonVal))
deriving DecidableEq

/-- The `metadata.json` written by `download_notification` into
`<root>/<received %Y-%m-%d>/<safe_court>_<safe_procedure>`. -/
def metadata_file (now : DateTime) (n : NotificationInfo) : WrittenFile :=
  { dateFolder := n.received_date.fmtDate
    itemFolder := safe_court n.court ++ "_" ++ safe_procedure n.procedure_number
    fileName := "metadata.json"
    jsonContent := some (metadata_fields now n) }

/-- The human-readable summary `NOTIFICACION.txt` written by
`download_notification` into the same directory as `metadata.json`. -/
def summary_file (n : NotificationInfo) : WrittenFile :=
  { dateFolder := n.received_date.fmtDate
    itemFolder := safe_court n.court ++ "_" ++ safe_procedure n.procedure_number
    fileName := "NOTIFICACION.txt"
    jsonContent := none }

/-- `LexNetAutomator.download_notification`: the directories are created,
then `metadata.json` is written, then `NOTIFICACION.txt` — two sequential
writes, not an atomic one. On success return `True` with both files on disk;
a filesystem error is caught and yields `False`, leaving on disk whatever was
already written (in particular `metadata.json` alone when the summary write
raised). -/
def download_notification (env : SessionEnv) (n : NotificationInfo) :
    Bool × List WrittenFile :=
  match env.itemWrite n with
  | ItemWriteOutcome.ok => (true, [metadata_file env.now n, summary_file n])
  | ItemWriteOutcome.failBeforeMetadata => (false, [])
  | ItemWriteOutcome.failAfterMetadata => (false, [metadata_file env.now n])

/-- The `for notification in notifications` loop of
`LexNetAutomator.download_notifications`, counting successful per-item
downloads; an unexpected exception at index `env.abortAt` aborts the loop
(it is caught by the surrounding `except`, keeping the partial count). -/
def download_loop (env : SessionEnv) (items : List NotificationInfo)
    (i : Nat) (acc : Nat) : Nat :=
  match items with
  | [] => acc
  | n :: rest =>
    if env.abortAt = some i then acc
    else download_loop env rest (i + 1)
      (acc + (if (download_notification env n).1 then 1 else 0))

/-- `LexNetAutomator.download_notifications`: an empty input returns 0 before
any session work; otherwise `try` login (on failure return 0), run the
download loop, and close the driver in `finally` on every path. -/
def download_notifications (env : SessionEnv)
    (items : List NotificationInfo) (a : Automator) : Nat × Automator :=
  if items = [] then (0, a)
  else
    match login env a with
    | (false, a1) => (0, a1.close)
    | (true, a1) => (download_loop env items 0 0, a1.close)

/-- One configured account, as read from the config dicts in
`check_all_accounts` (`enabled`, `name`, `certificate_thumbprint`,
`certificate_file`, `certificate_password`). -/
structure Account where
  enabled : Bool
  name : String
  thumb : String
  cfile : String
  cpass : String
deriving DecidableEq

/-- The per-notification tagging loop of `check_all_accounts`: copy the
account's name and identity reference onto a discovered notification. -/
def tag (acct : Account) (n : NotificationInfo) : NotificationInfo :=
  { n with
    account_name := acct.name
    certificate_thumbprint := acct.thumb
    certificate_file := acct.cfile
    certificate_password := acct.cpass }

/-- The agent state touched by the modelled methods of `VentoAgent`:
`self.pending_notifications` (the Pending Item Registry), `self.last_sync`,
and `self.new_notifications_count`. -/
structure AgentState where
  pending : List NotificationInfo
  last_sync : Option DateTime
  new_notifications_count : Nat
deriving DecidableEq

/-- A message pushed to the notification surface (`show_notification`);
the rendered Spanish text is abstracted to its content. -/
inductive AgentMsg where
  | noAccounts
  | summary (pending urgent : Nat)
  | noNew
  | downloadedCount (n : Nat)
deriving DecidableEq

/-- Environment for one `check_all_accounts` pass: per account, either the
notification list returned by that account's `LexNetAutomator.check_notifications`
(which itself never raises), or an exception from constructing/driving the
automator, caught by the per-account `except`. -/
structure CheckEnv where
  check : Account → Except String (List NotificationInfo)

/-- The per-account loop body of `VentoAgent.check_all_accounts`: skip
disabled accounts; on success extend `all_pending` with the tagged
notifications; a raised exception is caught and the account contributes
nothing. -/
def check_accounts_loop (env : CheckEnv) (accounts : List Account)
    (acc : List NotificationInfo) : List NotificationInfo :=
  match accounts with
  | [] => acc
  | a :: rest =>
    if !a.enabled then check_accounts_loop env rest acc
    else
      match env.check a with
      | Except.error _ => check_accounts_loop env rest acc
      | Except.ok ns => check_accounts_loop env rest (acc ++ ns.map (tag a))

/-- `VentoAgent.check_all_accounts`: with no configured accounts, notify and
return early (state untouched); otherwise run the per-account loop, set
`last_sync`, replace `pending_notifications` by a single assignment, and emit
one summary message. -/
def check_all_accounts (env : CheckEnv) (now : DateTime)
    (accounts : List Account) (st : AgentState) : AgentState × List AgentMsg :=
  if accounts = [] then (st, [AgentMsg.noAccounts])
  else
    let all_pending := check_accounts_loop env accounts []
    let st1 := { st with pending := all_pending, last_sync := some now }
    if all_pending = [] then (st1, [AgentMsg.noNew])
    else (st1, [AgentMsg.summary all_pending.length
      (all_pending.countP (fun n => n.is_urgent))])

/-- The key set of the `by_account` dict built by
`download_selected_notifications`, in first-occurrence (insertion) order. -/
def insertKey (ks : List IdKey) (k : IdKey) : List IdKey :=
  if k ∈ ks then ks else ks ++ [k]

/-- All grouping keys occurring in the selection, in insertion order. -/
def groupKeys (items : List NotificationInfo) : List IdKey :=
  items.foldl (fun ks n => insertKey ks (idKey n)) []

/-- The notifications of one `by_account` group, in input order. -/
def groupItems (items : List NotificationInfo) (k : IdKey) :
    List NotificationInfo :=
  items.filter (fun n => idKey n = k)

/-- Environment for one `download_selected_notifications` pass: the session
environment met by the fresh `LexNetAutomator` constructed for each identity
group. -/
structure RetrieveEnv where
  sessionFor : IdKey → SessionEnv

/-- `VentoAgent.download_selected_notifications`: group the selected
notifications by `(certificate_thumbprint, certificate_file,
certificate_password)`; for each group construct a fresh automator and run
`download_notifications` (a raised exception is caught and the group
contributes 0); sum the per-group counts into `total_downloaded`; then remove
each selected notification from `pending_notifications` if present
(`list.remove`, first occurrence); store the total and emit the summary. -/
def download_selected_notifications (env : RetrieveEnv) (st : AgentState)
    (items : List NotificationInfo) : AgentState × List AgentMsg :=
  let keys := groupKeys items
  let total := (keys.map (fun k =>
    (download_notifications (env.sessionFor k) (groupItems items k) automator0).1)).sum
  let pending1 := items.foldl (fun p n => p.erase n) st.pending
  ({ st with pending := pending1, new_notifications_count := total },
    [AgentMsg.downloadedCount total])

/-- The state of a `SyncScheduler` relevant to `set_interval`. -/
structure SchedulerState where
  interval_minutes : Int
deriving DecidableEq

/-- `SyncScheduler.set_interval`: `self.interval_minutes = max(5, min(1440, minutes))`
under the lock. -/
def set_interval (st : SchedulerState) (minutes : Int) : SchedulerState :=
  { st with interval_minutes := max 5 (min 1440 minutes) }

/-- The configuration state relevant to `set_sync_interval`. -/
structure Config where
  sync_interval_minutes : Int
deriving DecidableEq

/-- `ConfigManager.set_sync_interval`:
`self.set('sync_interval_minutes', max(5, min(1440, minutes)))`. -/
def set_sync_interval (c : Config) (minutes : Int) : Config :=
  { c with sync_interval_minutes := max 5 (min 1440 minutes) }

/-- `SyncScheduler._run_loop`, abstracted over time: cycle `i` runs while
`running i` holds; the callback for cycle `i` either returns or raises an
error message, which the loop catches and logs before continuing. `fuel`
bounds how many cycles we observe. Returns the number of callback invocations
made and the errors logged. -/
def run_loop (cb : Nat → Except String Unit) (running : Nat → Bool) :
    Nat → Nat → Nat × List String
  | 0, _ => (0, [])
  | fuel + 1, i =>
    if running i then
      let logged := match cb i with
        | Except.ok _ => ([] : List String)
        | Except.error e => [e]
      let r := run_loop cb running fuel (i + 1)
      (r.1 + 1, logged ++ r.2)
    else (0, [])

/-- Whether `login` succeeds for a freshly constructed automator:
`setup_browser` succeeds and no exception is raised while navigating.
(Derived from `login`; used to state the retrieval-count characterisations.) -/
def login_fresh_ok (se : SessionEnv) : Bool :=
  setup_ok se && !se.navRaises

/-- Whether one selected notification is actually retrieved by
`download_selected_notifications`: its group's fresh login succeeds and its
own `download_notification` succeeds. (Derived characterisation.) -/
def retrieved_ok (env : RetrieveEnv) (n : NotificationInfo) : Bool :=
  login_fresh_ok (env.sessionFor (idKey n)) && (env.sessionFor (idKey n)).itemOk n

/-- What one account contributes to a check pass: its tagged notifications on
success, nothing when its session raised. (Derived characterisation of the
loop body of `check_all_accounts`.) -/
def account_contribution (env : CheckEnv) (a : Account) : List NotificationInfo :=
  match env.check a with
  | Except.ok ns => ns.map (tag a)
  | Except.error _ => []

/-! ### Concrete instances used by witnesses and counterexamples -/

/-- A fixed instant. -/
def dt0 : DateTime :=
  { year := 2024, month := 5, day := 10, hour := 12, minute := 0, second := 0 }

/-- A pending notification retrievable with certificate thumbprint `T1`. -/
def nA : NotificationInfo :=
  { mkNotification "NOTIF-A" "Juzgado Uno de Madrid" "1/2024" "Providencia" dt0 false with
      account_name := "CuentaA", certificate_thumbprint := "T1" }

/-- A pending notification retrievable with certificate thumbprint `T2`. -/
def nB : NotificationInfo :=
  { mkNotification "NOTIF-B" "Juzgado Dos de Barcelona" "2/2024" "Sentencia" dt0 true with
      account_name := "CuentaB", certificate_thumbprint := "T2" }

/-- A session environment in which everything succeeds (the inbox scrape
finds nothing, so listing falls back to the mock notifications). -/
def sessOk (now : DateTime) : SessionEnv :=
  { now := now, seleniumImportOk := true, edgeStarts := true,
    edgeConfigOk := true, chromeOk := true, navRaises := false,
    urlBandeja := true, pageNotif := false, finalLexnetOk := true,
    scrapeRaises := false, scraped := [], checkAborts := false,
    abortAt := none, itemWrite := fun _ => ItemWriteOutcome.ok }

/-- A session environment whose login raises, i.e. whole-group
authentication failure. -/
def sessAuthFail (now : DateTime) : SessionEnv :=
  { sessOk now with navRaises := true }

/-- A session environment in which the Edge driver starts, its configuration
then raises, and the Chrome fallback succeeds: the Edge session is orphaned. -/
def sessEdgeLeak : SessionEnv :=
  { sessOk dt0 with edgeConfigOk := false }

/-- A session environment in which every per-item write raises after
`metadata.json` was written but before the summary file. -/
def sessPartialWrite : SessionEnv :=
  { sessOk dt0 with itemWrite := fun _ => ItemWriteOutcome.failAfterMetadata }

/-- Retrieval environment where the `T1` identity group fails to
authenticate and every other group fully succeeds. -/
def envC1 : RetrieveEnv :=
  { sessionFor := fun k => if k.1 = "T1" then sessAuthFail dt0 else sessOk dt0 }

/-- Retrieval environment where every group fully succeeds. -/
def envOkAll : RetrieveEnv :=
  { sessionFor := fun _ => sessOk dt0 }

/-- An agent state whose registry holds `nA` and `nB`. -/
def st0 : AgentState :=
  { pending := [nA, nB], last_sync := none, new_notifications_count := 0 }

/-- A disabled account. -/
def acctDisabled : Account :=
  { enabled := false, name := "CuentaD", thumb := "TD", cfile := "", cpass := "" }

/-- An enabled account using thumbprint `T1`. -/
def acctA : Account :=
  { enabled := true, name := "CuentaA", thumb := "T1", cfile := "", cpass := "" }

/-- An enabled account using thumbprint `T2`. -/
def acctB : Account :=
  { enabled := true, name := "CuentaB", thumb := "T2", cfile := "", cpass := "" }

/-- An untagged notification as discovered by a session. -/
def nX : NotificationInfo :=
  mkNotification "NOTIF-X" "Juzgado Tres de Valencia" "3/2024" "Diligencia" dt0 true

/-- Check environment in which the `T1` account's session raises and every
other account discovers exactly `nX`. -/
def cenvFailA : CheckEnv :=
  { check := fun a => if a.thumb = "T1" then Except.error "AccountAuthFailure"
      else Except.ok [nX] }

/-! ### Helper lemmas about the session model -/

theorem login_nav_fst (env : SessionEnv) (a : Automator) :
    (login_nav env a).1 = !env.navRaises := by
  unfold login_nav
  split_ifs <;> simp_all

theorem login_nav_snd (env : SessionEnv) (a : Automator) :
    (login_nav env a).2 = a := by
  unfold login_nav
  split_ifs <;> rfl

theorem login_fst (env : SessionEnv) (a : Automator) :
    (login env a).1 = ((a.driver || setup_ok env) && !env.navRaises) := by
  unfold login setup_browser try_chrome_fallback setup_ok
  cases hd : a.driver <;> cases hi : env.seleniumImportOk <;>
    cases he : env.edgeStarts <;> cases hc : env.edgeConfigOk <;>
      cases hch : env.chromeOk <;>
        simp [hd, hi, he, hc, hch, login_nav_fst]

theorem login_snd_driver (env : SessionEnv) (a : Automator) :
    ((login env a).2).driver = (a.driver || driver_after_setup env) := by
  unfold login setup_browser try_chrome_fallback driver_after_setup
  cases hd : a.driver <;> cases hi : env.seleniumImportOk <;>
    cases he : env.edgeStarts <;> cases hc : env.edgeConfigOk <;>
      cases hch : env.chromeOk <;>
        simp [hd, hi, he, hc, hch, login_nav_snd]

theorem setup_ok_driver (env : SessionEnv) (h : setup_ok env = true) :
    driver_after_setup env = true := by
  unfold setup_ok at h
  unfold driver_after_setup
  cases hi : env.seleniumImportOk <;> cases he : env.edgeStarts <;>
    cases hch : env.chromeOk <;> simp_all

theorem close_after_login_automator0 (env : SessionEnv) :
    ((login env automator0).2).close =
      { driver := false, live := setup_leak env } := by
  unfold login automator0 setup_browser try_chrome_fallback setup_leak
    Automator.close
  cases hi : env.seleniumImportOk <;> cases he : env.edgeStarts <;>
    cases hc : env.edgeConfigOk <;> cases hch : env.chromeOk <;>
      simp [hi, he, hc, hch, login_nav_snd]

theorem get_pending_ne_nil (env : SessionEnv) :
    get_pending_notifications env true ≠ [] := by
  unfold get_pending_notifications
  split_ifs with h1 h2 h3
  · simp at h1
  · simp [mock_notifications]
  · simp [mock_notifications]
  · exact h3

/-- C4 counterexample: when the Edge driver starts, a later setup line
raises, and the Chrome fallback succeeds, a completed check pass leaves one
live session — the orphaned Edge instance — although the tracked driver was
released, contradicting "a completed pass always leaves zero live sessions". -/
theorem C4_counterexample :
    (check_notifications sessEdgeLeak automator0).2.live = 1 ∧
    (check_notifications sessEdgeLeak automator0).2.driver = false := by
  decide

/-- C4 (amended): on every exit path of a check pass (`check_notifications`)
or a retrieve pass (`download_notifications`) from a freshly constructed
automator — login failure, mid-pass exception (`checkAborts` / `abortAt`),
or success — the tracked driver is released before the method returns, and
the pass leaves zero live sessions except in the Edge-partial-setup-then-
Chrome-fallback case, where exactly the one orphaned Edge session stays live
(and a retrieve pass with an empty selection opens no session at all). -/
theorem C4_sessions_closed_except_orphaned_edge (env : SessionEnv)
    (items : List NotificationInfo) :
    (check_notifications env automator0).2.driver = false ∧
    (check_notifications env automator0).2.live = setup_leak env ∧
    (download_notifications env items automator0).2.driver = false ∧
    (download_notifications env items automator0).2.live =
      (if items = [] then 0 else setup_leak env) := by
  have hclose : ∀ b a1, login env automator0 = (b, a1) →
      a1.close = { driver := false, live := setup_leak env } := by
    intro b a1 hlog
    have h := close_after_login_automator0 env
    rw [hlog] at h
    exact h
  have hc : (check_notifications env automator0).2 =
      { driver := false, live := setup_leak env } := by
    unfold check_notifications
    rcases hlog : login env automator0 with ⟨b, a1⟩
    have h2 := hclose b a1 hlog
    cases b
    · simpa using h2
    · split_ifs <;> simpa using h2
  by_cases hemp : items = []
  · subst hemp
    have hd : (download_notifications env [] automator0).2 = automator0 := rfl
    rw [hc, hd]
    exact ⟨rfl, rfl, rfl, by simp [automator0]⟩
  · have hd : (download_notifications env items automator0).2 =
        { driver := false, live := setup_leak env } := by
      unfold download_notifications
      rw [if_neg hemp]
      rcases hlog : login env automator0 with ⟨b, a1⟩
      have h2 := hclose b a1 hlog
      cases b <;> simpa using h2
    rw [hc, hd, if_neg hemp]
    exact ⟨rfl, rfl, rfl, rfl⟩

/-- C9: `login` returns `False` exactly when no driver can be obtained (no
driver set and `setup_browser` fails) or an exception is raised inside the
navigation `try` body; its result never depends on the post-navigation URL
checks, so the inconclusive "Estado de login incierto" case also returns
`True` and a `True` result does not certify an authenticated session. -/
theorem C9_login_true_unless_setup_or_nav_fails (env : SessionEnv) (a : Automator) :
    (login env a).1 = ((a.driver || setup_ok env) && !env.navRaises) := by
  unfold login setup_browser try_chrome_fallback setup_ok
  cases hd : a.driver <;> cases hi : env.seleniumImportOk <;>
    cases he : env.edgeStarts <;> cases hc : env.edgeConfigOk <;>
      cases hch : env.chromeOk <;>
        simp [hd, hi, he, hc, hch, login_nav_fst]

/-- C5: whenever the driver is initialised and the inbox scrape yields zero
notifications or raises, `get_pending_notifications` returns the two hardcoded
mock notifications rather than an empty list; with a driver it never returns
an empty list, so a `check_notifications` pass returns no items only when
login failed or the pass itself raised mid-way. -/
theorem C5_mock_fallback (env : SessionEnv) (a : Automator) :
    (mock_notifications env.now).length = 2 ∧
    (env.scrapeRaises = true ∨ env.scraped = [] →
      get_pending_notifications env true = mock_notifications env.now) ∧
    get_pending_notifications env true ≠ [] ∧
    ((check_notifications env a).1 = [] →
      (login env a).1 = false ∨ env.checkAborts = true) := by
  refine ⟨rfl, ?_, get_pending_ne_nil env, ?_⟩
  · intro h
    rcases h with h | h
    · simp [get_pending_notifications, h]
    · by_cases hr : env.scrapeRaises = true <;>
        simp [get_pending_notifications, h, hr]
  · intro h
    unfold check_notifications at h
    rcases hlog : login env a with ⟨b, a1⟩
    rw [hlog] at h
    cases b
    · left
      rfl
    · right
      by_cases hab : env.checkAborts = true
      · exact hab
      · exfalso
        simp only [hab, if_false, Bool.false_eq_true] at h
        have hdrv : a1.driver = true := by
          have hsnd := login_snd_driver env a
          rw [hlog] at hsnd
          have hfst := login_fst env a
          rw [hlog] at hfst
          have hand : ((a.driver || setup_ok env) && !env.navRaises) = true :=
            hfst.symm
          have hor : (a.driver || setup_ok env) = true := by
            cases ho : (a.driver || setup_ok env)
            · rw [ho] at hand
              simp at hand
            · rfl
          have hor2 : (a.driver || driver_after_setup env) = true := by
            cases hda : a.driver
            · rw [hda] at hor
              simp only [Bool.false_or] at hor
              simp [setup_ok_driver env hor]
            · simp
          rw [hsnd, hor2]
        rw [hdrv] at h
        exact get_pending_ne_nil env h

/-- C5 witness: in the all-success environment the scrape finds nothing and
listing returns the mock notifications. -/
theorem C5_witness :
    (sessOk dt0).scraped = [] ∧
    get_pending_notifications (sessOk dt0) true = mock_notifications (sessOk dt0).now :=
  ⟨rfl, (C5_mock_fallback (sessOk dt0) automator0).2.1 (Or.inr rfl)⟩

/-- C7: `set_interval` stores its integer input clamped into `[5, 1440]`
(below 5 becomes 5, above 1440 becomes 1440, in-range unchanged), and the
configuration store's `set_sync_interval` applies the same clamp. -/
theorem C7_interval_clamped (st : SchedulerState) (c : Config) (m : Int) :
    (set_interval st m).interval_minutes =
      (if m < 5 then 5 else if 1440 < m then 1440 else m) ∧
    (set_sync_interval c m).sync_interval_minutes =
      (if m < 5 then 5 else if 1440 < m then 1440 else m) := by
  constructor <;>
    · show max 5 (min 1440 m) = _
      split_ifs <;> omega

/-- C8: while the running flag stays set, the scheduler loop performs one
callback invocation per cycle no matter how many callbacks raise — a raised
callback is caught and the loop continues, never terminating early. -/
theorem C8_callback_failure_never_stops_loop (cb : Nat → Except String Unit)
    (running : Nat → Bool) (fuel i : Nat)
    (hrun : ∀ j, j < fuel → running (i + j) = true) :
    (run_loop cb running fuel i).1 = fuel := by
  induction fuel generalizing i with
  | zero => rfl
  | succ k ih =>
    have h0 : running i = true := by
      have := hrun 0 (Nat.succ_pos k)
      simpa using this
    have hrec : (run_loop cb running k (i + 1)).1 = k := by
      apply ih
      intro j hj
      have := hrun (j + 1) (by omega)
      simpa [Nat.add_comm, Nat.add_left_comm, Nat.add_assoc] using this
    simp only [run_loop, h0, if_true]
    cases hcb : cb i <;> simp [hcb, hrec]

/-- C8 witness: a callback that raises on every cycle still runs on all three
observed cycles. -/
theorem C8_witness :
    (run_loop (fun _ => Except.error "fallo") (fun _ => true) 3 0).1 = 3 :=
  C8_callback_failure_never_stops_loop (fun _ => Except.error "fallo")
    (fun _ => true) 3 0 (fun _ _ => rfl)

theorem check_accounts_loop_eq (env : CheckEnv) (accounts : List Account)
    (acc : List NotificationInfo) :
    check_accounts_loop env accounts acc =
      acc ++ ((accounts.filter (fun a => a.enabled)).map
        (account_contribution env)).flatten := by
  induction accounts generalizing acc with
  | nil => simp [check_accounts_loop]
  | cons a rest ih =>
    by_cases he : a.enabled = true
    · cases hc : env.check a with
      | error e =>
        simp [check_accounts_loop, he, hc, ih, account_contribution]
      | ok ns =>
        simp [check_accounts_loop, he, hc, ih, account_contribution]
    · simp [check_accounts_loop, he, ih]

theorem check_all_accounts_ne (env : CheckEnv) (now : DateTime)
    (st : AgentState) (accounts : List Account) (hne : accounts ≠ []) :
    (check_all_accounts env now accounts st).1 =
      { st with
          pending := ((accounts.filter (fun a => a.enabled)).map
            (account_contribution env)).flatten
          last_sync := some now } := by
  simp only [check_all_accounts, if_neg hne, check_accounts_loop_eq,
    List.nil_append]
  split_ifs <;> rfl

/-- C10: with an empty configured-accounts list, `check_all_accounts` returns
early after emitting the "no accounts" notification, leaving the registry and
the last-check timestamp untouched; with a nonempty list of all-disabled
accounts, the registry is replaced by the empty collection, the last-check
timestamp is updated, and the "no new items" notification is emitted. -/
theorem C10_empty_accounts_vs_all_disabled (env : CheckEnv) (now : DateTime)
    (st : AgentState) :
    check_all_accounts env now [] st = (st, [AgentMsg.noAccounts]) ∧
    (∀ accounts : List Account, accounts ≠ [] →
      (∀ a ∈ accounts, a.enabled = false) →
      (check_all_accounts env now accounts st).1.pending = [] ∧
      (check_all_accounts env now accounts st).1.last_sync = some now ∧
      (check_all_accounts env now accounts st).2 = [AgentMsg.noNew]) := by
  constructor
  · rfl
  · intro accounts hne hdis
    have hfil : accounts.filter (fun a => a.enabled) = [] := by
      rw [List.filter_eq_nil_iff]
      intro a ha
      simp [hdis a ha]
    have h1 := check_all_accounts_ne env now st accounts hne
    rw [hfil] at h1
    simp only [List.map_nil, List.flatten_nil] at h1
    refine ⟨by rw [h1], by rw [h1], ?_⟩
    simp only [check_all_accounts, if_neg hne, check_accounts_loop_eq,
      List.nil_append, hfil, List.map_nil, List.flatten_nil]
    rfl

/-- C10 witness: a single disabled account ends the pass with an empty
registry and an updated timestamp. -/
theorem C10_witness :
    (check_all_accounts cenvFailA dt0 [acctDisabled] st0).1.pending = [] ∧
    (check_all_accounts cenvFailA dt0 [acctDisabled] st0).1.last_sync = some dt0 := by
  have h := (C10_empty_accounts_vs_all_disabled cenvFailA dt0 st0).2
    [acctDisabled] (by decide) (by decide)
  exact ⟨h.1, h.2.1⟩

/-- C2: when some accounts' sessions fail (raise or authenticate
unsuccessfully), `check_all_accounts` still terminates normally (exceptions
are values caught per account in this model), and afterwards the registry
equals exactly the concatenation of the per-account contributions of the
enabled accounts of this pass — a wholesale replacement independent of the
registry's previous contents, in which a failed account contributes nothing
and does not disturb the other accounts' discoveries. -/
theorem C2_account_failure_isolated (env : CheckEnv) (now : DateTime)
    (st : AgentState) (accounts : List Account) (hne : accounts ≠ []) :
    (check_all_accounts env now accounts st).1.pending =
      ((accounts.filter (fun a => a.enabled)).map
        (account_contribution env)).flatten ∧
    (check_all_accounts env now accounts st).1.last_sync = some now := by
  have h1 := check_all_accounts_ne env now st accounts hne
  exact ⟨by rw [h1], by rw [h1]⟩

/-- C2 witness: with two enabled accounts where the first one's session
raises, the registry afterwards holds exactly the second account's tagged
discovery. -/
theorem C2_witness :
    account_contribution cenvFailA acctA = [] ∧
    (check_all_accounts cenvFailA dt0 [acctA, acctB] st0).1.pending =
      [tag acctB nX] := by
  constructor
  · rfl
  · rw [(C2_account_failure_isolated cenvFailA dt0 st0 [acctA, acctB]
      (by decide)).1]
    decide

/-! ### Helper lemmas for the retrieve pass -/

theorem download_notification_fst (env : SessionEnv) (n : NotificationInfo) :
    (download_notification env n).1 = env.itemOk n := by
  unfold download_notification SessionEnv.itemOk
  cases env.itemWrite n <;> rfl

theorem download_loop_no_abort (env : SessionEnv) (h : env.abortAt = none) :
    ∀ (items : List NotificationInfo) (i acc : Nat),
      download_loop env items i acc = acc + items.countP env.itemOk := by
  intro items
  induction items with
  | nil =>
    intro i acc
    simp [download_loop]
  | cons n rest ih =>
    intro i acc
    unfold download_loop
    rw [h]
    simp only [reduceCtorEq, if_false]
    rw [ih (i + 1), download_notification_fst, List.countP_cons]
    cases he : env.itemOk n <;> (simp [he]; try omega)

theorem download_notifications_count (env : SessionEnv) (h : env.abortAt = none)
    (items : List NotificationInfo) :
    (download_notifications env items automator0).1 =
      if login_fresh_ok env then items.countP env.itemOk else 0 := by
  unfold download_notifications
  by_cases hemp : items = []
  · subst hemp
    simp
  · rw [if_neg hemp]
    rcases hlog : login env automator0 with ⟨b, a1⟩
    have hb : b = login_fresh_ok env := by
      have h2 := login_fst env automator0
      rw [hlog] at h2
      simpa [automator0, login_fresh_ok] using h2
    subst hb
    cases hl : login_fresh_ok env
    · simp
    · simp [download_loop_no_abort env h items 0 0]

theorem group_count_eq (env : RetrieveEnv)
    (hab : ∀ k, (env.sessionFor k).abortAt = none)
    (items : List NotificationInfo) (k : IdKey) :
    (download_notifications (env.sessionFor k) (groupItems items k) automator0).1 =
      (groupItems items k).countP (retrieved_ok env) := by
  rw [download_notifications_count (env.sessionFor k) (hab k)]
  have hkey : ∀ n ∈ groupItems items k, idKey n = k := by
    intro n hn
    have := List.mem_filter.mp hn
    simpa using this.2
  cases hl : login_fresh_ok (env.sessionFor k)
  · rw [if_neg (by simp [hl])]
    symm
    rw [List.countP_eq_zero]
    intro n hn
    simp [retrieved_ok, hkey n hn, hl]
  · rw [if_pos (by simp [hl])]
    apply List.countP_congr
    intro n hn
    simp [retrieved_ok, hkey n hn, hl]

theorem mem_insertKey {ks : List IdKey} {k0 k : IdKey} :
    k ∈ insertKey ks k0 ↔ k ∈ ks ∨ k = k0 := by
  unfold insertKey
  split_ifs with hm
  · constructor
    · exact Or.inl
    · rintro (h | h)
      · exact h
      · rw [h]
        exact hm
  · simp [List.mem_append]

theorem insertKey_nodup (ks : List IdKey) (k0 : IdKey) (h : ks.Nodup) :
    (insertKey ks k0).Nodup := by
  unfold insertKey
  split_ifs with hm
  · exact h
  · refine List.Nodup.append h (List.nodup_singleton k0) ?_
    intro x hx hx0
    rw [List.mem_singleton] at hx0
    exact hm (hx0 ▸ hx)

theorem groupKeys_aux_mem (l : List NotificationInfo) :
    ∀ (acc : List IdKey) (k : IdKey),
      k ∈ l.foldl (fun ks n => insertKey ks (idKey n)) acc ↔
        k ∈ acc ∨ ∃ n, n ∈ l ∧ idKey n = k := by
  induction l with
  | nil =>
    intro acc k
    simp
  | cons n rest ih =>
    intro acc k
    simp only [List.foldl_cons]
    rw [ih, mem_insertKey]
    constructor
    · rintro ((h | h) | ⟨m, hm, hk⟩)
      · exact Or.inl h
      · exact Or.inr ⟨n, List.mem_cons_self n rest, h.symm⟩
      · exact Or.inr ⟨m, List.mem_cons_of_mem n hm, hk⟩
    · rintro (h | ⟨m, hm, hk⟩)
      · exact Or.inl (Or.inl h)
      · rcases List.mem_cons.mp hm with hm | hm
        · exact Or.inl (Or.inr (by rw [← hk, hm]))
        · exact Or.inr ⟨m, hm, hk⟩

theorem groupKeys_aux_nodup (l : List NotificationInfo) :
    ∀ acc : List IdKey, acc.Nodup →
      (l.foldl (fun ks n => insertKey ks (idKey n)) acc).Nodup := by
  induction l with
  | nil =>
    intro acc h
    simpa using h
  | cons n rest ih =>
    intro acc h
    simp only [List.foldl_cons]
    exact ih _ (insertKey_nodup acc (idKey n) h)

theorem mem_groupKeys {items : List NotificationInfo} {k : IdKey} :
    k ∈ groupKeys items ↔ ∃ n, n ∈ items ∧ idKey n = k := by
  unfold groupKeys
  rw [groupKeys_aux_mem]
  simp

theorem groupKeys_nodup (items : List NotificationInfo) :
    (groupKeys items).Nodup :=
  groupKeys_aux_nodup items [] List.nodup_nil

theorem sum_map_add_nat (ks : List IdKey) (f g : IdKey → Nat) :
    (ks.map (fun k => f k + g k)).sum = (ks.map f).sum + (ks.map g).sum := by
  induction ks with
  | nil => rfl
  | cons k rest ih =>
    simp only [List.map_cons, List.sum_cons, ih]
    omega

theorem sum_map_indicator (ks : List IdKey) (k0 : IdKey) (c : Nat)
    (hnd : ks.Nodup) (hm : k0 ∈ ks) :
    (ks.map (fun k => if k0 = k then c else 0)).sum = c := by
  induction ks with
  | nil => cases hm
  | cons k rest ih =>
    simp only [List.map_cons, List.sum_cons]
    rcases List.mem_cons.mp hm with h | h
    · rw [if_pos h]
      have hk0 : k0 ∉ rest := by
        rw [h]
        exact (List.nodup_cons.mp hnd).1
      have hz : (rest.map (fun k => if k0 = k then c else 0)).sum = 0 := by
        apply List.sum_eq_zero
        intro x hx
        rcases List.mem_map.mp hx with ⟨k1, hk1, hxe⟩
        have hne : ¬ (k0 = k1) := fun he => hk0 (by rw [he]; exact hk1)
        rw [← hxe, if_neg hne]
      omega
    · have hne : k0 ≠ k := fun he => (List.nodup_cons.mp hnd).1 (he ▸ h)
      rw [if_neg hne, ih (List.nodup_cons.mp hnd).2 h]
      omega

theorem sum_groups_countP (Q : NotificationInfo → Bool)
    (items : List NotificationInfo) (ks : List IdKey) (hnd : ks.Nodup)
    (hcov : ∀ n ∈ items, idKey n ∈ ks) :
    (ks.map (fun k => (groupItems items k).countP Q)).sum = items.countP Q := by
  induction items with
  | nil =>
    rw [List.countP_nil]
    apply List.sum_eq_zero
    intro x hx
    rcases List.mem_map.mp hx with ⟨k, _, he⟩
    rw [← he]
    simp [groupItems]
  | cons n rest ih =>
    have hcov2 : ∀ m ∈ rest, idKey m ∈ ks :=
      fun m hm => hcov m (List.mem_cons_of_mem n hm)
    have hsplit : (fun k => (groupItems (n :: rest) k).countP Q) =
        fun k => (groupItems rest k).countP Q +
          (if idKey n = k then (if Q n then 1 else 0) else 0) := by
      funext k
      unfold groupItems
      rw [List.filter_cons]
      by_cases h : idKey n = k
      · simp [h, List.countP_cons]
      · simp [h]
    rw [hsplit, sum_map_add_nat, ih hcov2,
      sum_map_indicator ks (idKey n) _ hnd (hcov n (List.mem_cons_self n rest)),
      List.countP_cons]

theorem download_selected_count (env : RetrieveEnv)
    (hab : ∀ k, (env.sessionFor k).abortAt = none)
    (st : AgentState) (items : List NotificationInfo) :
    (download_selected_notifications env st items).1.new_notifications_count =
      items.countP (retrieved_ok env) := by
  show ((groupKeys items).map (fun k =>
    (download_notifications (env.sessionFor k) (groupItems items k) automator0).1)).sum =
      items.countP (retrieved_ok env)
  rw [List.map_congr_left (fun k _ => group_count_eq env hab items k)]
  exact sum_groups_countP (retrieved_ok env) items (groupKeys items)
    (groupKeys_nodup items) (fun n hn => mem_groupKeys.mpr ⟨n, hn, rfl⟩)

theorem foldl_erase_eq_filter :
    ∀ (items : List NotificationInfo) (p : List NotificationInfo), p.Nodup →
      items.foldl (fun acc n => acc.erase n) p =
        p.filter (fun x => decide (x ∉ items)) := by
  intro items
  induction items with
  | nil =>
    intro p _
    simp
  | cons n rest ih =>
    intro p hp
    simp only [List.foldl_cons]
    rw [ih (p.erase n) (List.Nodup.erase n hp),
      List.Nodup.erase_eq_filter hp n, List.filter_filter]
    apply List.filter_congr
    intro x _
    by_cases h1 : x = n <;> by_cases h2 : x ∈ rest <;> simp [h1, h2]

theorem foldl_erase_of_disjoint :
    ∀ (items : List NotificationInfo) (p : List NotificationInfo),
      (∀ n ∈ items, n ∉ p) →
      items.foldl (fun acc n => acc.erase n) p = p := by
  intro items
  induction items with
  | nil =>
    intro p _
    rfl
  | cons n rest ih =>
    intro p h
    simp only [List.foldl_cons]
    rw [List.erase_of_not_mem (h n (List.mem_cons_self n rest))]
    exact ih p (fun m hm => h m (List.mem_cons_of_mem n hm))

theorem download_selected_pending (env : RetrieveEnv) (st : AgentState)
    (items : List NotificationInfo) (hnd : st.pending.Nodup) :
    (download_selected_notifications env st items).1.pending =
      st.pending.filter (fun x => decide (x ∉ items)) :=
  foldl_erase_eq_filter items st.pending hnd

/-- C1 counterexample: with two selected items in two identity groups where
`nA`'s group fails authentication (its retrieval count is 0), the registry
afterwards is empty — the failed item `nA`, pending beforehand, was removed
anyway, contradicting "every item whose retrieval failed remains in the
registry". -/
theorem C1_counterexample :
    nA ∈ st0.pending ∧
    (download_notifications (envC1.sessionFor (idKey nA))
      (groupItems [nA, nB] (idKey nA)) automator0).1 = 0 ∧
    (download_selected_notifications envC1 st0 [nA, nB]).1.pending = [] := by
  decide

/-- C1 (amended): after `download_selected_notifications`, every selected
item is removed from the registry regardless of retrieval success (items
whose retrieval failed — per item or by whole-group authentication failure —
are removed too), and the reported success count equals the number of items
actually retrieved (group login succeeded and the item's own download
succeeded). -/
theorem C1_all_selected_removed (env : RetrieveEnv) (st : AgentState)
    (items : List NotificationInfo) (hnd : st.pending.Nodup)
    (hab : ∀ k, (env.sessionFor k).abortAt = none) :
    (download_selected_notifications env st items).1.pending =
      st.pending.filter (fun x => decide (x ∉ items)) ∧
    (download_selected_notifications env st items).1.new_notifications_count =
      items.countP (retrieved_ok env) ∧
    (download_selected_notifications env st items).2 =
      [AgentMsg.downloadedCount
        ((download_selected_notifications env st items).1.new_notifications_count)] :=
  ⟨download_selected_pending env st items hnd,
    download_selected_count env hab st items, rfl⟩

/-- C1 witness: in the two-group scenario the success count is the number of
items whose group authenticated and whose download succeeded (here 1). -/
theorem C1_witness :
    st0.pending.Nodup ∧
    (download_selected_notifications envC1 st0 [nA, nB]).1.new_notifications_count =
      [nA, nB].countP (retrieved_ok envC1) := by
  have hab : ∀ k : IdKey, (envC1.sessionFor k).abortAt = none := by
    intro k
    by_cases h : k.1 = "T1" <;> simp [envC1, sessAuthFail, sessOk, h]
  exact ⟨by decide, (C1_all_selected_removed envC1 st0 [nA, nB] (by decide) hab).2.1⟩

/-- C3 counterexample: after a first fully successful
`download_selected_notifications` call empties the registry, a second call
with the same item set retrieves the whole set again (count 2), not zero —
the function operates on its argument, not on the registry. -/
theorem C3_counterexample :
    (download_selected_notifications envOkAll st0 [nA, nB]).1.pending = [] ∧
    (download_selected_notifications envOkAll
        (download_selected_notifications envOkAll st0 [nA, nB]).1
        [nA, nB]).1.new_notifications_count = 2 := by
  decide

/-- C3 (amended): calling `download_selected_notifications` again with an
item set no longer present in the registry does not error, leaves the
registry unchanged (every removal is a no-op), but re-attempts retrieval of
every item in the set: the reported count is again the number of items whose
group authenticates and whose download succeeds, not zero. -/
theorem C3_second_call_redownloads (env : RetrieveEnv) (st : AgentState)
    (items : List NotificationInfo)
    (hgone : ∀ n ∈ items, n ∉ st.pending)
    (hab : ∀ k, (env.sessionFor k).abortAt = none) :
    (download_selected_notifications env st items).1.pending = st.pending ∧
    (download_selected_notifications env st items).1.new_notifications_count =
      items.countP (retrieved_ok env) :=
  ⟨foldl_erase_of_disjoint items st.pending hgone,
    download_selected_count env hab st items⟩

/-- C3 witness: a second call on an emptied registry keeps the registry empty
while re-retrieving both items. -/
theorem C3_witness :
    (download_selected_notifications envOkAll
      { pending := [], last_sync := none, new_notifications_count := 2 }
      [nA, nB]).1.pending = [] ∧
    (download_selected_notifications envOkAll
      { pending := [], last_sync := none, new_notifications_count := 2 }
      [nA, nB]).1.new_notifications_count = [nA, nB].countP (retrieved_ok envOkAll) :=
  C3_second_call_redownloads envOkAll
    { pending := [], last_sync := none, new_notifications_count := 2 }
    [nA, nB] (by decide) (fun k => rfl)

/-- C6 counterexample: the metadata record written by `download_notification`
has exactly the seven keys below, omitting the owning account name
(`nA.account_name = "CuentaA"` is not persisted) and the identity-reference
fields, so it does not contain all PendingItem fields; a backslash — a path
separator on the target Windows platform — in the case reference is not
replaced; and the per-item write is not atomic: when the summary write
raises, `metadata.json` is left on disk while the item reports as failed. -/
theorem C6_counterexample :
    nA.account_name = "CuentaA" ∧
    (metadata_fields dt0 nA).map Prod.fst =
      ["notification_id", "court", "procedure_number", "notification_type",
        "received_date", "is_urgent", "downloaded_at"] ∧
    "account_name" ∉ (metadata_fields dt0 nA).map Prod.fst ∧
    '\\' ∈ (safe_procedure "1234\\2024").toList ∧
    download_notification sessPartialWrite nA =
      (false, [metadata_file dt0 nA]) := by
  decide

/-- C6 (amended): on every successful per-item retrieval the program writes,
into the directory `<root>/<received %Y-%m-%d>/<sanitized-origin>_<sanitized-case-ref>`,
a `metadata.json` holding the item's identifier, origin, case reference,
category, received timestamp and download timestamp in ISO-8601 and the
urgency flag (but not the owning account name or identity reference), plus a
sibling human-readable summary file; the origin part is truncated to at most
30 characters and sanitized, and `/` (but not `\`) in the case reference is
replaced; the two files are written sequentially per item, not atomically: a
failure before `metadata.json` leaves nothing, and a failure between the two
writes leaves `metadata.json` alone on disk with the item counted as failed. -/
theorem C6_metadata_layout (env : SessionEnv) (n : NotificationInfo) :
    (env.itemWrite n = ItemWriteOutcome.ok →
      download_notification env n =
        (true, [metadata_file env.now n, summary_file n])) ∧
    (env.itemWrite n = ItemWriteOutcome.failBeforeMetadata →
      download_notification env n = (false, [])) ∧
    (env.itemWrite n = ItemWriteOutcome.failAfterMetadata →
      download_notification env n = (false, [metadata_file env.now n])) ∧
    (metadata_file env.now n).dateFolder = n.received_date.fmtDate ∧
    (metadata_file env.now n).itemFolder =
      safe_court n.court ++ "_" ++ safe_procedure n.procedure_number ∧
    (summary_file n).dateFolder = (metadata_file env.now n).dateFolder ∧
    (summary_file n).itemFolder = (metadata_file env.now n).itemFolder ∧
    (metadata_file env.now n).fileName = "metadata.json" ∧
    (summary_file n).fileName = "NOTIFICACION.txt" ∧
    (metadata_file env.now n).jsonContent = some (metadata_fields env.now n) ∧
    (safe_court n.court).length ≤ 30 ∧
    (∀ c ∈ (safe_procedure n.procedure_number).toList, c ≠ '/') ∧
    ("received_date", JsonVal.str n.received_date.isoformat) ∈
      metadata_fields env.now n ∧
    ("downloaded_at", JsonVal.str env.now.isoformat) ∈
      metadata_fields env.now n := by
  refine ⟨?_, ?_, ?_, rfl, rfl, rfl, rfl, rfl, rfl, rfl, ?_, ?_, ?_, ?_⟩
  · intro h
    simp [download_notification, h]
  · intro h
    simp [download_notification, h]
  · intro h
    simp [download_notification, h]
  · show (String.mk (pyStrip ((n.court.toList.take 30).filter
      (fun c => c.isAlphanum || c = ' ' || c = '-' || c = '_')))).length ≤ 30
    have h1 : ∀ l : List Char, (pyStrip l).length ≤ l.length := by
      intro l
      unfold pyStrip
      calc ((l.dropWhile Char.isWhitespace).reverse.dropWhile
              Char.isWhitespace).reverse.length
          = ((l.dropWhile Char.isWhitespace).reverse.dropWhile
              Char.isWhitespace).length := List.length_reverse _
        _ ≤ (l.dropWhile Char.isWhitespace).reverse.length :=
            (List.dropWhile_sublist _).length_le
        _ = (l.dropWhile Char.isWhitespace).length := List.length_reverse _
        _ ≤ l.length := (List.dropWhile_sublist _).length_le
    calc (String.mk (pyStrip ((n.court.toList.take 30).filter _))).length
        = (pyStrip ((n.court.toList.take 30).filter
            (fun c => c.isAlphanum || c = ' ' || c = '-' || c = '_'))).length := rfl
      _ ≤ ((n.court.toList.take 30).filter
            (fun c => c.isAlphanum || c = ' ' || c = '-' || c = '_')).length := h1 _
      _ ≤ (n.court.toList.take 30).length := List.length_filter_le _ _
      _ ≤ 30 := by simp [List.length_take]
  · intro c hc
    have hc2 : c ∈ (n.procedure_number.toList.map
        (fun c => if c = '/' then '-' else c)) := hc
    rcases List.mem_map.mp hc2 with ⟨c0, _, he⟩
    rw [← he]
    by_cases h0 : c0 = '/' <;> simp [h0]
  · simp [metadata_fields]
  · simp [metadata_fields]

/-- C6 witness: a concrete successful retrieval of `nA` writes both files. -/
theorem C6_witness :
    (sessOk dt0).itemWrite nA = ItemWriteOutcome.ok ∧
    download_notification (sessOk dt0) nA =
      (true, [metadata_file dt0 nA, summary_file nA]) :=
  ⟨rfl, (C6_metadata_layout (sessOk dt0) nA).1 rfl⟩
